import Mathlib

/-
Verification of the wordgames GameSession coordinator (src/game-session.js,
embedded here as executable Lean definitions). The Durable Object state is
a pair of an insertion-ordered association list of players (mirroring the
JS Map `this.players`) and a game-state string (mirroring `this.gameState`).
Handlers are translated line by line from the source:

  - `GameSession.fetch` models the WebSocket admission path, including the
    Upgrade-header check, the capacity check, positional role assignment,
    the conditional transition to the playing state, and the two outbound
    messages.
  - `GameSession.handleSubmit` models submission recording, the submitted
    acknowledgement, and the reveal check.  The JS expression
    `question.submission` throws a TypeError when `find` returns undefined;
    this is modelled by the crash flag (third component) being true, with
    no reveal broadcast emitted.
  - `GameSession.webSocketClose` models clean disconnects, including the
    source ternary whose two branches are both the waiting state.
  - `GameSession.webSocketError` models errored disconnects.

Outbound traffic is modelled as a list of `Out` events: `Out.sendTo pid m`
for a `ws.send` on a single socket and `Out.broadcast m` for
`this.broadcast`.  `run` executes a list of transport events against a
session.  Transport events are guarded the way the Cloudflare runtime
guarantees them: an admitted id is fresh (crypto.randomUUID), and a
message can only arrive from a socket that is still connected, hence from
a player id that is still in the map.
-/

namespace WordGames

/-- Role and submission record of one player, mirroring the values stored in
the JS Map: `\x7b role, submission \x7d` where submission is null | string. -/
structure Player where
  role : String
  submission : Option String
deriving DecidableEq, Repr

/-- JS truthiness of a submission value: null and the empty string are falsy,
every other string is truthy. -/
def truthy : Option String → Bool
  | none => false
  | some s => s ≠ ""

/-- State of one GameSession Durable Object: the players Map (insertion
ordered association list) and the gameState string. -/
structure GameSession where
  players : List (String × Player)
  gameState : String
deriving DecidableEq, Repr

/-- Fresh session as built by the constructor: empty Map, waiting state. -/
def GameSession.start : GameSession := ⟨[], "waiting"⟩

/-- JS `Map.prototype.set`: update in place when the key is present,
append otherwise. -/
def mapSet : List (String × Player) → String → Player → List (String × Player)
  | [], k, v => [(k, v)]
  | (k', v') :: rest, k, v =>
    if k' = k then (k, v) :: rest else (k', v') :: mapSet rest k v

/-- JS `Map.prototype.get`. -/
def mapGet : List (String × Player) → String → Option Player
  | [], _ => none
  | (k', v') :: rest, k => if k' = k then some v' else mapGet rest k

/-- JS `Map.prototype.delete`. -/
def mapDelete : List (String × Player) → String → List (String × Player)
  | [], _ => []
  | (k', v') :: rest, k => if k' = k then rest else (k', v') :: mapDelete rest k

/-- Outbound message payloads of the session, one constructor per wire
message type the server emits. -/
inductive Msg where
  | joined (playerId role : String) (playerCount : Nat) (gameState : String)
  | state (playerCount : Nat) (gameState : String)
  | submitted
  | reveal (question answer : String)
deriving DecidableEq, Repr

/-- One outbound transmission: a send on a single socket, or a broadcast to
every connected socket. -/
inductive Out where
  | sendTo (playerId : String) (m : Msg)
  | broadcast (m : Msg)
deriving DecidableEq, Repr

/-- Result of the fetch handler: HTTP 400 for a non-WebSocket request,
HTTP 403 when the session already has two players, or acceptance carrying
the new player id and role. -/
inductive FetchResult where
  | badRequest
  | full
  | accepted (playerId role : String)
deriving DecidableEq, Repr

/-- Admission handler, translated from GameSession.fetch: reject non-upgrade
requests, reject when the Map already holds two players, otherwise assign
the role by current occupancy (question when the Map is empty, answer
otherwise), insert the player, switch to the playing state when the Map now
holds two players, send the joined message to the new socket and broadcast
the updated state. -/
def GameSession.fetch (s : GameSession) (freshId : String) (isUpgrade : Bool) :
    GameSession × FetchResult × List Out :=
  if !isUpgrade then (s, FetchResult.badRequest, [])
  else if 2 ≤ s.players.length then (s, FetchResult.full, [])
  else
    let role := if s.players.length = 0 then "question" else "answer"
    let players := mapSet s.players freshId ⟨role, none⟩
    let g := if players.length = 2 then "playing" else s.gameState
    (⟨players, g⟩, FetchResult.accepted freshId role,
      [Out.sendTo freshId (Msg.joined freshId role players.length g),
       Out.broadcast (Msg.state players.length g)])

/-- Submission handler, translated from GameSession.handleSubmit.  The pid
and role arguments are the socket attachment written at admission time.
Returns the new state, the outbound events in emission order, and a crash
flag that is true exactly when the JS code would throw a TypeError reading
`.submission` off the undefined result of a failed role lookup (the
gameState write to revealed precedes that read, so the crashed state keeps
the revealed value and the submitted acknowledgement, but no reveal is
broadcast). -/
def GameSession.handleSubmit (s : GameSession) (pid role content : String) :
    GameSession × List Out × Bool :=
  if s.gameState ≠ "playing" then (s, [], false)
  else
    let players := mapSet s.players pid ⟨role, some content⟩
    let outs := [Out.sendTo pid Msg.submitted]
    let allPlayers := players.map Prod.snd
    if allPlayers.length = 2 && allPlayers.all (fun p => truthy p.submission) then
      match allPlayers.find? (fun p => p.role == "question"),
            allPlayers.find? (fun p => p.role == "answer") with
      | some q, some a =>
        match q.submission, a.submission with
        | some qs, some ans =>
          (⟨players, "revealed"⟩, outs ++ [Out.broadcast (Msg.reveal qs ans)], false)
        | _, _ => (⟨players, "revealed"⟩, outs, true)
      | _, _ => (⟨players, "revealed"⟩, outs, true)
    else (⟨players, s.gameState⟩, outs, false)

/-- Clean disconnect handler, translated from GameSession.webSocketClose:
delete the player, recompute the gameState through the source ternary (both
branches of which are the waiting state) unless already revealed, and
broadcast the updated state. -/
def GameSession.webSocketClose (s : GameSession) (pid : String) :
    GameSession × List Out :=
  let players := mapDelete s.players pid
  let g := if s.gameState ≠ "revealed" then
             (if 0 < players.length then "waiting" else "waiting")
           else s.gameState
  (⟨players, g⟩, [Out.broadcast (Msg.state players.length g)])

/-- Errored disconnect handler, translated from GameSession.webSocketError:
delete the player and close the socket; the gameState is not recomputed and
nothing is broadcast. -/
def GameSession.webSocketError (s : GameSession) (pid : String) :
    GameSession × List Out :=
  (⟨mapDelete s.players pid, s.gameState⟩, [])

/-- Transport events a session can receive: a WebSocket admission attempt,
a submit message from a connected player, a clean close, an errored close. -/
inductive Op where
  | join (pid : String)
  | submit (pid content : String)
  | close (pid : String)
  | error (pid : String)
deriving DecidableEq, Repr

/-- One transport event applied to a session.  Admission ids are fresh
(an event naming a present id is impossible and treated as a no-op), and a
submit can only come from a still-connected socket, whose attachment role
equals the role stored for that id in the Map. -/
def step (s : GameSession) (op : Op) : GameSession × List Out × Bool :=
  match op with
  | Op.join pid =>
    match mapGet s.players pid with
    | some _ => (s, [], false)
    | none => ((s.fetch pid true).1, (s.fetch pid true).2.2, false)
  | Op.submit pid c =>
    match mapGet s.players pid with
    | some pl => s.handleSubmit pid pl.role c
    | none => (s, [], false)
  | Op.close pid => ((s.webSocketClose pid).1, (s.webSocketClose pid).2, false)
  | Op.error pid => ((s.webSocketError pid).1, (s.webSocketError pid).2, false)

/-- Execute a list of transport events, accumulating outbound events. -/
def run (s : GameSession) : List Op → GameSession × List Out
  | [] => (s, [])
  | op :: ops =>
    match step s op with
    | (s', outs, _) =>
      match run s' ops with
      | (s'', outs') => (s'', outs ++ outs')

/-- Recognizer for a reveal broadcast among outbound events. -/
def isReveal : Out → Bool
  | Out.broadcast (Msg.reveal _ _) => true
  | _ => false

/-- Number of reveal broadcasts in a list of outbound events. -/
def countReveals (outs : List Out) : Nat := (outs.filter isReveal).length

/-- Recognizer for admission events. -/
def isJoin : Op → Bool
  | Op.join _ => true
  | _ => false

/-- Setting a key makes it retrievable with the written value. -/
theorem mapGet_mapSet_self (m : List (String × Player)) (k : String) (v : Player) :
    mapGet (mapSet m k v) k = some v := by
  induction m with
  | nil => simp [mapSet, mapGet]
  | cons hd tl ih =>
    obtain ⟨k', v'⟩ := hd
    by_cases h : k' = k
    · simp [mapSet, mapGet, h]
    · simp [mapSet, mapGet, h, ih]

/-- A retrievable key-value pair is a member of the association list. -/
theorem mapGet_mem (m : List (String × Player)) (k : String) (v : Player)
    (h : mapGet m k = some v) : (k, v) ∈ m := by
  induction m with
  | nil => simp [mapGet] at h
  | cons hd tl ih =>
    obtain ⟨k', v'⟩ := hd
    by_cases hk : k' = k
    · subst hk
      simp [mapGet] at h
      simp [h]
    · simp [mapGet, hk] at h
      exact List.mem_cons_of_mem _ (ih h)

/-- Setting an absent key grows the list by one entry. -/
theorem mapSet_length_of_none (m : List (String × Player)) (k : String) (v : Player)
    (h : mapGet m k = none) : (mapSet m k v).length = m.length + 1 := by
  induction m with
  | nil => simp [mapSet]
  | cons hd tl ih =>
    obtain ⟨k', v'⟩ := hd
    by_cases hk : k' = k
    · simp [mapGet, hk] at h
    · simp [mapGet, hk] at h
      simp [mapSet, hk, ih h]

/-- Setting a present key keeps the length unchanged. -/
theorem mapSet_length_of_some (m : List (String × Player)) (k : String) (v v' : Player)
    (h : mapGet m k = some v') : (mapSet m k v).length = m.length := by
  induction m with
  | nil => simp [mapGet] at h
  | cons hd tl ih =>
    obtain ⟨k', w⟩ := hd
    by_cases hk : k' = k
    · simp [mapSet, hk]
    · simp [mapGet, hk] at h
      simp [mapSet, hk, ih h]

/-- Deleting never grows the association list. -/
theorem mapDelete_length_le (m : List (String × Player)) (k : String) :
    (mapDelete m k).length ≤ m.length := by
  induction m with
  | nil => simp [mapDelete]
  | cons hd tl ih =>
    obtain ⟨k', v'⟩ := hd
    by_cases hk : k' = k
    · simp only [mapDelete, if_pos hk, List.length_cons]
      omega
    · simp only [mapDelete, if_neg hk, List.length_cons]
      omega

/-- Submission handling either leaves the players Map untouched (wrong phase)
or writes the submitted content under the sender id. -/
theorem handleSubmit_players_cases (s : GameSession) (pid role c : String) :
    (s.handleSubmit pid role c).1.players = s.players ∨
    (s.handleSubmit pid role c).1.players = mapSet s.players pid ⟨role, some c⟩ := by
  simp only [GameSession.handleSubmit]
  split
  · exact Or.inl rfl
  · split
    · split
      · split
        · exact Or.inr rfl
        · exact Or.inr rfl
      · exact Or.inr rfl
    · exact Or.inr rfl

/-- In the playing phase a submit always records the content under the sender
id and always sends the submitted acknowledgement to the sender. -/
theorem handleSubmit_players_of_playing (s : GameSession) (pid role c : String)
    (h : s.gameState = "playing") :
    (s.handleSubmit pid role c).1.players = mapSet s.players pid ⟨role, some c⟩ ∧
    Out.sendTo pid Msg.submitted ∈ (s.handleSubmit pid role c).2.1 := by
  simp only [GameSession.handleSubmit, h, ne_eq, not_true_eq_false, if_false]
  split
  · split
    · split
      · exact ⟨rfl, by simp⟩
      · exact ⟨rfl, by simp⟩
    · exact ⟨rfl, by simp⟩
  · exact ⟨rfl, by simp⟩

/-- Admission of a fresh id keeps the player count at or below two. -/
theorem fetch_length_le (s : GameSession) (pid : String) (u : Bool)
    (h : s.players.length ≤ 2) (hg : mapGet s.players pid = none) :
    (s.fetch pid u).1.players.length ≤ 2 := by
  simp only [GameSession.fetch]
  split
  · exact h
  · split
    · exact h
    · rename_i h2
      simp only
      rw [mapSet_length_of_none s.players pid _ hg]
      omega

/-- Every transport event preserves the two-player capacity bound. -/
theorem step_length_le (s : GameSession) (op : Op) (h : s.players.length ≤ 2) :
    (step s op).1.players.length ≤ 2 := by
  cases op with
  | join pid =>
    rcases hg : mapGet s.players pid with _ | pl
    · simp only [step, hg]
      exact fetch_length_le s pid true h hg
    · simpa [step, hg] using h
  | submit pid c =>
    rcases hg : mapGet s.players pid with _ | pl
    · simpa [step, hg] using h
    · simp only [step, hg]
      rcases handleSubmit_players_cases s pid pl.role c with hc | hc
      · rw [hc]; exact h
      · rw [hc, mapSet_length_of_some s.players pid _ pl hg]
        exact h
  | close pid =>
    simp only [step, GameSession.webSocketClose]
    exact le_trans (mapDelete_length_le s.players pid) h
  | error pid =>
    simp only [step, GameSession.webSocketError]
    exact le_trans (mapDelete_length_le s.players pid) h

/-- Any event sequence preserves the two-player capacity bound. -/
theorem run_length_le (s : GameSession) (ops : List Op) (h : s.players.length ≤ 2) :
    (run s ops).1.players.length ≤ 2 := by
  induction ops generalizing s with
  | nil => simpa [run] using h
  | cons op ops ih =>
    simp only [run]
    exact ih _ (step_length_le s op h)

/-- Claim C2, counterexample: the reveal broadcast is not emitted exactly once
per session.  After a complete round (admit p1, admit p2, both submit, reveal),
closing the responder and admitting a third player flips the gameState back to
playing, and the retained question submission plus the newcomer submission fire
a second reveal broadcast, so this event sequence produces two reveals. -/
theorem c2_counterexample :
    countReveals (run GameSession.start [Op.join "p1", Op.join "p2",
      Op.submit "p1" "x", Op.submit "p2" "y", Op.close "p2", Op.join "p3",
      Op.submit "p3" "z"]).2 = 2 := by decide

/-- Claim C3, code evaluation at the failing input: a single admission leaves
the session with one participant and gameState waiting, not a ready state (no
ready value exists in the code), and a disconnect from a two-player game also
recomputes to waiting with one participant remaining, through the source
ternary whose branches are both the waiting string. -/
theorem c3_no_ready_phase :
    (run GameSession.start [Op.join "p1"]).1
      = ⟨[("p1", ⟨"question", none⟩)], "waiting"⟩ ∧
    (run GameSession.start [Op.join "p1", Op.join "p2", Op.close "p2"]).1
      = ⟨[("p1", ⟨"question", none⟩)], "waiting"⟩ := by decide

/-- Claim C4, counterexample: a second submit from the same participant is not
rejected and does not preserve the original submission.  After p1 submits hi,
a further submit of bye from p1 overwrites the stored submission with bye, and
the session answers with a second submitted acknowledgement instead of an
AlreadySubmitted error. -/
theorem c4_counterexample :
    mapGet (run GameSession.start [Op.join "p1", Op.join "p2",
        Op.submit "p1" "hi", Op.submit "p1" "bye"]).1.players "p1"
      = some ⟨"question", some "bye"⟩ ∧
    (step (run GameSession.start [Op.join "p1", Op.join "p2",
        Op.submit "p1" "hi"]).1 (Op.submit "p1" "bye")).2.1
      = [Out.sendTo "p1" Msg.submitted] := by decide

/-- Claim C5, code evaluation at the failing input: after admit p1, admit p2,
close p1, admit p3 the session holds two participants that both carry the
answer role (the role is computed from current occupancy, not from the set of
roles in use), and when both of them submit, the reveal path crashes (the role
lookup for question finds nothing and the code reads a field off undefined),
shown by the crash flag of the final step being true. -/
theorem c5_two_responders :
    ((run GameSession.start [Op.join "p1", Op.join "p2", Op.close "p1",
        Op.join "p3"]).1.players.map (fun kv => kv.2.role)
      = ["answer", "answer"]) ∧
    (step (run GameSession.start [Op.join "p1", Op.join "p2", Op.close "p1",
        Op.join "p3", Op.submit "p2" "x"]).1 (Op.submit "p3" "y")).2.2
      = true := by decide

/-- Claim C7, counterexample: a submit while the session is in the waiting
phase is a silent no-op.  The state is unchanged, but no InvalidPhase error
message (indeed no message at all) is sent to the originating participant,
contrary to the claim that the failure is surfaced as an error. -/
theorem c7_counterexample :
    step (run GameSession.start [Op.join "p1"]).1 (Op.submit "p1" "hi")
      = ((run GameSession.start [Op.join "p1"]).1, [], false) := by decide

/-- Claim C8, counterexample: a submit whose content is the empty string is
not rejected.  The empty submission is recorded for the participant and a
submitted acknowledgement is sent back, contrary to the claim that it fails
with EmptyContent, records nothing and acknowledges nothing. -/
theorem c8_counterexample :
    (step (run GameSession.start [Op.join "p1", Op.join "p2"]).1
        (Op.submit "p1" "")).2.1 = [Out.sendTo "p1" Msg.submitted] ∧
    mapGet (step (run GameSession.start [Op.join "p1", Op.join "p2"]).1
        (Op.submit "p1" "")).1.players "p1" = some ⟨"question", some ""⟩ := by decide

/-- Claim C9, counterexample: the second successfully admitted participant of
a session does not always receive the answer role.  If the first participant
disconnects before the second is admitted, the second admission happens at
occupancy zero and receives the question role. -/
theorem c9_counterexample :
    (run GameSession.start [Op.join "p1", Op.close "p1", Op.join "p2"]).1.players
      = [("p2", ⟨"question", none⟩)] := by decide

/-- Claim C10: an errored channel termination removes the participant but is
otherwise frame-silent: the gameState is left exactly as it was, the players
Map merely has the id deleted, and no message is broadcast.  Consequently the
concrete trace admit p1, admit p2, error p1 leaves a session in the playing
phase holding a single participant. -/
theorem c10_error_frame :
    (∀ (s : GameSession) (pid : String),
      (s.webSocketError pid).1.gameState = s.gameState ∧
      (s.webSocketError pid).1.players = mapDelete s.players pid ∧
      (s.webSocketError pid).2 = []) ∧
    (run GameSession.start [Op.join "p1", Op.join "p2", Op.error "p1"]).1
      = ⟨[("p2", ⟨"answer", none⟩)], "playing"⟩ :=
  ⟨fun _ _ => ⟨rfl, rfl, rfl⟩, by decide⟩

/-- Executing a cons of events is one step followed by the rest, with the
outbound events concatenated. -/
theorem run_cons (s : GameSession) (op : Op) (ops : List Op) :
    run s (op :: ops)
      = ((run (step s op).1 ops).1, (step s op).2.1 ++ (run (step s op).1 ops).2) := rfl

/-- Reveal counting distributes over concatenation. -/
theorem countReveals_append (xs ys : List Out) :
    countReveals (xs ++ ys) = countReveals xs + countReveals ys := by
  simp [countReveals, List.filter_append]

/-- Outside the playing phase a submit is a complete no-op: unchanged state,
no outbound messages, no crash. -/
theorem handleSubmit_not_playing (s : GameSession) (pid role c : String)
    (h : s.gameState ≠ "playing") : s.handleSubmit pid role c = (s, [], false) := by
  unfold GameSession.handleSubmit
  rw [if_pos h]

/-- A submit of the empty string in the playing phase records the empty
submission, acknowledges it, and never fires the reveal (the empty string is
falsy in the completeness check), leaving the gameState untouched. -/
theorem handleSubmit_empty (s : GameSession) (pid role : String)
    (h : s.gameState = "playing") :
    s.handleSubmit pid role "" =
      (⟨mapSet s.players pid ⟨role, some ""⟩, s.gameState⟩,
       [Out.sendTo pid Msg.submitted], false) := by
  have hmem : (⟨role, some ""⟩ : Player) ∈
      (mapSet s.players pid ⟨role, some ""⟩).map Prod.snd :=
    List.mem_map_of_mem Prod.snd
      (mapGet_mem _ _ _ (mapGet_mapSet_self s.players pid ⟨role, some ""⟩))
  have hall' : ((mapSet s.players pid ⟨role, some ""⟩).map Prod.snd).all
      (fun p => truthy p.submission) = false := by
    by_contra hcontra
    simp only [Bool.not_eq_false] at hcontra
    have hx := List.all_eq_true.mp hcontra _ hmem
    simp [truthy] at hx
  simp only [GameSession.handleSubmit, h, ne_eq, not_true_eq_false, if_false, hall',
    Bool.and_false, Bool.false_eq_true]

/-- When a submit in the playing phase completes the reveal condition (two
players, all submissions truthy, both roles found), the handler sends the
acknowledgement followed by exactly the one reveal broadcast pairing the
question-role submission with the answer-role submission, and moves the
session to revealed. -/
theorem handleSubmit_reveal_fires (s : GameSession) (pid role c : String)
    (h : s.gameState = "playing")
    (hlen : (mapSet s.players pid ⟨role, some c⟩).length = 2)
    (hall : ((mapSet s.players pid ⟨role, some c⟩).map Prod.snd).all
      (fun p => truthy p.submission) = true)
    (q a : Player)
    (hq : ((mapSet s.players pid ⟨role, some c⟩).map Prod.snd).find?
      (fun p => p.role == "question") = some q)
    (ha : ((mapSet s.players pid ⟨role, some c⟩).map Prod.snd).find?
      (fun p => p.role == "answer") = some a) :
    ∃ qs ans, q.submission = some qs ∧ a.submission = some ans ∧
      s.handleSubmit pid role c =
        (⟨mapSet s.players pid ⟨role, some c⟩, "revealed"⟩,
         [Out.sendTo pid Msg.submitted, Out.broadcast (Msg.reveal qs ans)], false) := by
  have hqt := List.all_eq_true.mp hall _ (List.mem_of_find?_eq_some hq)
  have hat := List.all_eq_true.mp hall _ (List.mem_of_find?_eq_some ha)
  rcases hqs : q.submission with _ | qs
  · rw [hqs] at hqt; simp [truthy] at hqt
  rcases has : a.submission with _ | ans
  · rw [has] at hat; simp [truthy] at hat
  refine ⟨qs, ans, rfl, rfl, ?_⟩
  simp [GameSession.handleSubmit, h, hlen, hall, hq, ha, hqs, has]

/-- When a submit in the playing phase does not complete the reveal condition,
the handler only records and acknowledges, and the gameState is untouched. -/
theorem handleSubmit_no_reveal (s : GameSession) (pid role c : String)
    (h : s.gameState = "playing")
    (hcond : (decide ((mapSet s.players pid ⟨role, some c⟩).length = 2) &&
      ((mapSet s.players pid ⟨role, some c⟩).map Prod.snd).all
        (fun p => truthy p.submission)) = false) :
    s.handleSubmit pid role c =
      (⟨mapSet s.players pid ⟨role, some c⟩, s.gameState⟩,
       [Out.sendTo pid Msg.submitted], false) := by
  simp only [GameSession.handleSubmit, h, ne_eq, not_true_eq_false, if_false,
    List.length_map, hcond, Bool.false_eq_true, if_false]

/-- When a submit in the playing phase satisfies the two-truthy-players
condition but one of the role lookups fails (both players hold the same
role), the handler has already written revealed and sent the
acknowledgement, then crashes on the undefined lookup result: no reveal
broadcast is emitted. -/
theorem handleSubmit_role_lookup_fails (s : GameSession) (pid role c : String)
    (h : s.gameState = "playing")
    (hcond : (decide ((mapSet s.players pid ⟨role, some c⟩).length = 2) &&
      ((mapSet s.players pid ⟨role, some c⟩).map Prod.snd).all
        (fun p => truthy p.submission)) = true)
    (hmiss : ((mapSet s.players pid ⟨role, some c⟩).map Prod.snd).find?
        (fun p => p.role == "question") = none ∨
      ((mapSet s.players pid ⟨role, some c⟩).map Prod.snd).find?
        (fun p => p.role == "answer") = none) :
    s.handleSubmit pid role c =
      (⟨mapSet s.players pid ⟨role, some c⟩, "revealed"⟩,
       [Out.sendTo pid Msg.submitted], true) := by
  rcases hfq : ((mapSet s.players pid ⟨role, some c⟩).map Prod.snd).find?
      (fun p => p.role == "question") with _ | q <;>
    rcases hfa : ((mapSet s.players pid ⟨role, some c⟩).map Prod.snd).find?
      (fun p => p.role == "answer") with _ | a
  · simp only [GameSession.handleSubmit, h, ne_eq, not_true_eq_false, if_false,
      List.length_map, hcond, if_true, hfq, hfa]
  · simp only [GameSession.handleSubmit, h, ne_eq, not_true_eq_false, if_false,
      List.length_map, hcond, if_true, hfq, hfa]
  · simp only [GameSession.handleSubmit, h, ne_eq, not_true_eq_false, if_false,
      List.length_map, hcond, if_true, hfq, hfa]
  · exfalso
    rcases hmiss with hm | hm
    · rw [hfq] at hm
      exact Option.noConfusion hm
    · rw [hfa] at hm
      exact Option.noConfusion hm

/-- Admission never emits a reveal broadcast. -/
theorem countReveals_fetch (s : GameSession) (pid : String) (u : Bool) :
    countReveals (s.fetch pid u).2.2 = 0 := by
  simp only [GameSession.fetch]
  split
  · rfl
  · split
    · rfl
    · rfl

/-- A single submit emits at most one reveal broadcast. -/
theorem countReveals_handleSubmit_le_one (s : GameSession) (pid role c : String) :
    countReveals (s.handleSubmit pid role c).2.1 ≤ 1 := by
  simp only [GameSession.handleSubmit]
  split
  · exact Nat.zero_le 1
  · split
    · split
      · split
        · exact Nat.le_refl 1
        · exact Nat.zero_le 1
      · exact Nat.zero_le 1
    · exact Nat.zero_le 1

/-- Any step that emits a reveal broadcast is a submit step that found the
session in the playing phase and left it revealed. -/
theorem reveal_only_submit (s : GameSession) (op : Op)
    (h : 1 ≤ countReveals (step s op).2.1) :
    (∃ pid c, op = Op.submit pid c) ∧ s.gameState = "playing" ∧
      (step s op).1.gameState = "revealed" := by
  cases op with
  | join pid =>
    exfalso
    rcases hmg : mapGet s.players pid with _ | pl
    · simp only [step, hmg, countReveals_fetch] at h
      exact absurd h (by decide)
    · simp only [step, hmg] at h
      exact absurd h (Nat.not_succ_le_zero 0)
  | submit pid c =>
    rcases hmg : mapGet s.players pid with _ | pl
    · exfalso
      simp only [step, hmg] at h
      exact absurd h (Nat.not_succ_le_zero 0)
    · simp only [step, hmg] at h ⊢
      by_cases hg : s.gameState = "playing"
      · refine ⟨⟨pid, c, rfl⟩, hg, ?_⟩
        revert h
        simp only [GameSession.handleSubmit, hg, ne_eq, not_true_eq_false, if_false]
        split
        · split
          · split
            · intro _; rfl
            · intro hcontra; exact absurd hcontra (Nat.not_succ_le_zero 0)
          · intro hcontra; exact absurd hcontra (Nat.not_succ_le_zero 0)
        · intro hcontra; exact absurd hcontra (Nat.not_succ_le_zero 0)
      · exfalso
        rw [handleSubmit_not_playing s pid pl.role c hg] at h
        exact absurd h (Nat.not_succ_le_zero 0)
  | close pid =>
    exfalso
    simp only [step] at h
    exact absurd h (Nat.not_succ_le_zero 0)
  | error pid =>
    exfalso
    simp only [step] at h
    exact absurd h (Nat.not_succ_le_zero 0)

/-- From a revealed session, any non-admission step keeps the session
revealed and emits no reveal broadcast. -/
theorem step_revealed_no_admit (s : GameSession) (op : Op)
    (hg : s.gameState = "revealed") (hop : isJoin op = false) :
    (step s op).1.gameState = "revealed" ∧ countReveals (step s op).2.1 = 0 := by
  cases op with
  | join pid => simp [isJoin] at hop
  | submit pid c =>
    rcases hmg : mapGet s.players pid with _ | pl
    · simp [step, hmg, hg, countReveals]
    · simp only [step, hmg]
      rw [handleSubmit_not_playing s pid pl.role c (by rw [hg]; decide)]
      exact ⟨hg, rfl⟩
  | close pid =>
    refine ⟨?_, rfl⟩
    simp [step, GameSession.webSocketClose, hg]
  | error pid =>
    exact ⟨hg, rfl⟩

/-- From a revealed session, any admission-free event sequence keeps the
session revealed and emits no reveal broadcast. -/
theorem run_revealed_no_admit (s : GameSession) (ops : List Op)
    (hg : s.gameState = "revealed") (hops : ops.all (fun op => !isJoin op) = true) :
    (run s ops).1.gameState = "revealed" ∧ countReveals (run s ops).2 = 0 := by
  induction ops generalizing s with
  | nil => exact ⟨hg, rfl⟩
  | cons op ops ih =>
    simp only [List.all_cons, Bool.and_eq_true, Bool.not_eq_true'] at hops
    obtain ⟨hop, hops⟩ := hops
    obtain ⟨h1, h2⟩ := step_revealed_no_admit s op hg hop
    obtain ⟨ih1, ih2⟩ := ih (step s op).1 h1 hops
    rw [run_cons]
    exact ⟨ih1, by rw [countReveals_append, h2, ih2]⟩

/-- Claim C1: in a fresh two-player session, whichever order the two
participants submit their (non-empty) contents in, the single reveal
broadcast carries the content of the first-admitted participant (role
question, the Prompter) in the question field and the content of the
second-admitted participant (role answer, the Responder) in the answer
field; the payload is paired by role, not by arrival order. -/
theorem c1_reveal_pairs_by_role (p1 p2 c1 c2 : String)
    (hp : p1 ≠ p2) (h1 : c1 ≠ "") (h2 : c2 ≠ "") :
    ((run GameSession.start [Op.join p1, Op.join p2, Op.submit p1 c1,
        Op.submit p2 c2]).2.filter isReveal
      = [Out.broadcast (Msg.reveal c1 c2)]) ∧
    ((run GameSession.start [Op.join p1, Op.join p2, Op.submit p2 c2,
        Op.submit p1 c1]).2.filter isReveal
      = [Out.broadcast (Msg.reveal c1 c2)]) := by
  have hp' : p2 ≠ p1 := fun h => hp h.symm
  constructor <;>
    simp [run, step, GameSession.start, GameSession.fetch, GameSession.handleSubmit,
      mapGet, mapSet, truthy, hp, hp', h1, h2, isReveal, List.find?, List.all]

/-- Witness for claim C1 at concrete inputs. -/
theorem c1_reveal_pairs_by_role_witness :
    ((run GameSession.start [Op.join "p1", Op.join "p2", Op.submit "p1" "hi",
        Op.submit "p2" "yo"]).2.filter isReveal
      = [Out.broadcast (Msg.reveal "hi" "yo")]) ∧
    ((run GameSession.start [Op.join "p1", Op.join "p2", Op.submit "p2" "yo",
        Op.submit "p1" "hi"]).2.filter isReveal
      = [Out.broadcast (Msg.reveal "hi" "yo")]) :=
  c1_reveal_pairs_by_role "p1" "p2" "hi" "yo" (by decide) (by decide) (by decide)

/-- Claim C4, amended: in the playing phase a second submit from the same
participant id succeeds exactly like the first, overwriting the stored
submission with the new content and sending another submitted
acknowledgement; there is no AlreadySubmitted rejection. -/
theorem c4_second_submit_overwrites (s : GameSession) (pid role c1 c2 : String)
    (_h : s.gameState = "playing")
    (h2 : (s.handleSubmit pid role c1).1.gameState = "playing") :
    mapGet ((s.handleSubmit pid role c1).1.handleSubmit pid role c2).1.players pid
      = some ⟨role, some c2⟩ ∧
    Out.sendTo pid Msg.submitted ∈
      ((s.handleSubmit pid role c1).1.handleSubmit pid role c2).2.1 := by
  obtain ⟨hpl, hmem⟩ :=
    handleSubmit_players_of_playing (s.handleSubmit pid role c1).1 pid role c2 h2
  exact ⟨by rw [hpl, mapGet_mapSet_self], hmem⟩

/-- Witness for claim C4 at concrete inputs. -/
theorem c4_second_submit_overwrites_witness :
    mapGet (((⟨[("p1", ⟨"question", none⟩), ("p2", ⟨"answer", none⟩)],
        "playing"⟩ : GameSession).handleSubmit "p1" "question" "hi").1.handleSubmit
        "p1" "question" "bye").1.players "p1" = some ⟨"question", some "bye"⟩ ∧
    Out.sendTo "p1" Msg.submitted ∈
      (((⟨[("p1", ⟨"question", none⟩), ("p2", ⟨"answer", none⟩)],
        "playing"⟩ : GameSession).handleSubmit "p1" "question" "hi").1.handleSubmit
        "p1" "question" "bye").2.1 :=
  c4_second_submit_overwrites _ "p1" "question" "hi" "bye" (by decide) (by decide)

/-- Claim C6: no event sequence ever brings the session above two players,
and an admission attempted with two players present is rejected as full
without touching the players Map, the gameState, or any stored submission
(the whole state is returned unchanged) and without sending any message. -/
theorem c6_capacity (ops : List Op) (s : GameSession) (pid : String)
    (hs : s.players.length = 2) :
    (run GameSession.start ops).1.players.length ≤ 2 ∧
    s.fetch pid true = (s, FetchResult.full, []) := by
  constructor
  · exact run_length_le GameSession.start ops (by simp [GameSession.start])
  · simp only [GameSession.fetch, hs]
    rfl

/-- Witness for claim C6 at concrete inputs. -/
theorem c6_capacity_witness :
    (run GameSession.start [Op.join "a", Op.join "b", Op.join "c",
      Op.join "d"]).1.players.length ≤ 2 ∧
    (⟨[("p1", ⟨"question", some "x"⟩), ("p2", ⟨"answer", none⟩)],
        "playing"⟩ : GameSession).fetch "p3" true
      = (⟨[("p1", ⟨"question", some "x"⟩), ("p2", ⟨"answer", none⟩)],
        "playing"⟩, FetchResult.full, []) :=
  c6_capacity [Op.join "a", Op.join "b", Op.join "c", Op.join "d"]
    _ "p3" (by decide)

/-- Claim C7, amended: a submit issued while the session is not in the
playing phase (waiting or revealed; no ready phase exists) is silently
dropped: the whole session state is returned unchanged, no message of any
kind (in particular no error message) is sent, and nothing crashes. -/
theorem c7_wrong_phase_silent (s : GameSession) (pid role c : String)
    (h : s.gameState ≠ "playing") :
    s.handleSubmit pid role c = (s, [], false) := by
  unfold GameSession.handleSubmit
  rw [if_pos h]

/-- Witness for claim C7 at concrete inputs. -/
theorem c7_wrong_phase_silent_witness :
    (⟨[("p1", ⟨"question", none⟩)], "waiting"⟩ : GameSession).handleSubmit
        "p1" "question" "hi"
      = (⟨[("p1", ⟨"question", none⟩)], "waiting"⟩, [], false) :=
  c7_wrong_phase_silent _ "p1" "question" "hi" (by decide)

/-- Claim C9, amended: the role is assigned by occupancy at admission time,
not by admission ordinal: an admission into an empty session yields the
question role (Prompter), an admission alongside one present participant
yields the answer role (Responder); in particular in an uninterrupted fresh
session the first admitted participant is the Prompter and the second the
Responder. -/
theorem c9_role_by_occupancy (s : GameSession) (pid p1 p2 : String)
    (hp : p1 ≠ p2) :
    (s.players.length = 0 →
      (s.fetch pid true).2.1 = FetchResult.accepted pid "question") ∧
    (s.players.length = 1 →
      (s.fetch pid true).2.1 = FetchResult.accepted pid "answer") ∧
    (run GameSession.start [Op.join p1, Op.join p2]).1.players
      = [(p1, ⟨"question", none⟩), (p2, ⟨"answer", none⟩)] := by
  refine ⟨fun h0 => ?_, fun h1 => ?_, ?_⟩
  · simp [GameSession.fetch, h0]
  · simp [GameSession.fetch, h1]
  · simp [run, step, GameSession.start, GameSession.fetch, mapGet, mapSet, hp]

/-- Witness for claim C9 at concrete inputs. -/
theorem c9_role_by_occupancy_witness :
    ((GameSession.start.players.length = 0 →
      (GameSession.start.fetch "q" true).2.1 = FetchResult.accepted "q" "question") ∧
    (GameSession.start.players.length = 1 →
      (GameSession.start.fetch "q" true).2.1 = FetchResult.accepted "q" "answer") ∧
    (run GameSession.start [Op.join "p1", Op.join "p2"]).1.players
      = [("p1", ⟨"question", none⟩), ("p2", ⟨"answer", none⟩)]) :=
  c9_role_by_occupancy GameSession.start "q" "p1" "p2" (by decide)

/-- Claim C2, amended: reveal discipline of the session.  Every reveal
broadcast comes from a submit step that found the session in the playing
phase and left it revealed; a single submit emits at most one reveal, emits
exactly one when the updated Map holds two players with truthy submissions
and both roles resolve, emits none (leaving the phase at playing) when
the two-truthy-players condition fails, and emits none (writing revealed
and then crashing) when the condition holds but a role lookup fails; and
from a revealed session any admission-free event sequence emits no further
reveal.  (A disconnect after the reveal followed by a new admission
restarts the playing phase, so a second reveal in the same session is
possible; see the counterexample.) -/
theorem c2_reveal_discipline :
    (∀ (s : GameSession) (op : Op), 1 ≤ countReveals (step s op).2.1 →
      (∃ pid c, op = Op.submit pid c) ∧ s.gameState = "playing" ∧
        (step s op).1.gameState = "revealed") ∧
    (∀ (s : GameSession) (pid role c : String),
      countReveals (s.handleSubmit pid role c).2.1 ≤ 1) ∧
    (∀ (s : GameSession) (pid role c : String) (q a : Player),
      s.gameState = "playing" →
      (mapSet s.players pid ⟨role, some c⟩).length = 2 →
      ((mapSet s.players pid ⟨role, some c⟩).map Prod.snd).all
        (fun p => truthy p.submission) = true →
      ((mapSet s.players pid ⟨role, some c⟩).map Prod.snd).find?
        (fun p => p.role == "question") = some q →
      ((mapSet s.players pid ⟨role, some c⟩).map Prod.snd).find?
        (fun p => p.role == "answer") = some a →
      countReveals (s.handleSubmit pid role c).2.1 = 1 ∧
      (s.handleSubmit pid role c).1.gameState = "revealed") ∧
    (∀ (s : GameSession) (pid role c : String),
      s.gameState = "playing" →
      (decide ((mapSet s.players pid ⟨role, some c⟩).length = 2) &&
        ((mapSet s.players pid ⟨role, some c⟩).map Prod.snd).all
          (fun p => truthy p.submission)) = false →
      countReveals (s.handleSubmit pid role c).2.1 = 0 ∧
      (s.handleSubmit pid role c).1.gameState = "playing") ∧
    (∀ (s : GameSession) (pid role c : String),
      s.gameState = "playing" →
      (decide ((mapSet s.players pid ⟨role, some c⟩).length = 2) &&
        ((mapSet s.players pid ⟨role, some c⟩).map Prod.snd).all
          (fun p => truthy p.submission)) = true →
      (((mapSet s.players pid ⟨role, some c⟩).map Prod.snd).find?
          (fun p => p.role == "question") = none ∨
        ((mapSet s.players pid ⟨role, some c⟩).map Prod.snd).find?
          (fun p => p.role == "answer") = none) →
      countReveals (s.handleSubmit pid role c).2.1 = 0 ∧
      (s.handleSubmit pid role c).1.gameState = "revealed" ∧
      (s.handleSubmit pid role c).2.2 = true) ∧
    (∀ (s : GameSession) (ops : List Op), s.gameState = "revealed" →
      ops.all (fun op => !isJoin op) = true →
      (run s ops).1.gameState = "revealed" ∧ countReveals (run s ops).2 = 0) := by
  refine ⟨reveal_only_submit, countReveals_handleSubmit_le_one,
    fun s pid role c q a h hlen hall hq ha => ?_,
    fun s pid role c h hcond => ?_,
    fun s pid role c h hcond hmiss => ?_, run_revealed_no_admit⟩
  · obtain ⟨qs, ans, _, _, heq⟩ :=
      handleSubmit_reveal_fires s pid role c h hlen hall q a hq ha
    rw [heq]
    exact ⟨rfl, rfl⟩
  · rw [handleSubmit_no_reveal s pid role c h hcond]
    exact ⟨rfl, h⟩
  · rw [handleSubmit_role_lookup_fails s pid role c h hcond hmiss]
    exact ⟨rfl, rfl, rfl⟩

/-- Witness for claim C2 at concrete inputs. -/
theorem c2_reveal_discipline_witness :
    (countReveals ((⟨[("p1", ⟨"question", some "x"⟩), ("p2", ⟨"answer", none⟩)],
        "playing"⟩ : GameSession).handleSubmit "p2" "answer" "y").2.1 = 1 ∧
      ((⟨[("p1", ⟨"question", some "x"⟩), ("p2", ⟨"answer", none⟩)],
        "playing"⟩ : GameSession).handleSubmit "p2" "answer" "y").1.gameState
        = "revealed") ∧
    (countReveals ((⟨[("p2", ⟨"answer", some "x"⟩), ("p3", ⟨"answer", none⟩)],
        "playing"⟩ : GameSession).handleSubmit "p3" "answer" "y").2.1 = 0 ∧
      ((⟨[("p2", ⟨"answer", some "x"⟩), ("p3", ⟨"answer", none⟩)],
        "playing"⟩ : GameSession).handleSubmit "p3" "answer" "y").1.gameState
        = "revealed" ∧
      ((⟨[("p2", ⟨"answer", some "x"⟩), ("p3", ⟨"answer", none⟩)],
        "playing"⟩ : GameSession).handleSubmit "p3" "answer" "y").2.2 = true) ∧
    ((run (⟨[("p2", ⟨"answer", some "y"⟩)], "revealed"⟩ : GameSession)
        [Op.close "p2", Op.submit "p2" "z"]).1.gameState = "revealed" ∧
      countReveals (run (⟨[("p2", ⟨"answer", some "y"⟩)], "revealed"⟩ : GameSession)
        [Op.close "p2", Op.submit "p2" "z"]).2 = 0) :=
  ⟨c2_reveal_discipline.2.2.1 _ "p2" "answer" "y" ⟨"question", some "x"⟩
      ⟨"answer", some "y"⟩ (by decide) (by decide) (by decide) (by decide) (by decide),
    c2_reveal_discipline.2.2.2.2.1 _ "p3" "answer" "y" (by decide) (by decide)
      (Or.inl (by decide)),
    c2_reveal_discipline.2.2.2.2.2 _ [Op.close "p2", Op.submit "p2" "z"]
      (by decide) (by decide)⟩

/-- Claim C8, amended: the code performs no content validation.  A submit of
the empty string in the playing phase is recorded as the stored submission
and acknowledged with a submitted message exactly like any other submit, and
the only effect of its emptiness is that, being falsy in JS, it never
satisfies the reveal completeness check, so the phase stays at playing; a
whitespace-only submission is truthy and participates in the reveal like
normal content. -/
theorem c8_empty_content_recorded :
    (∀ (s : GameSession) (pid role : String), s.gameState = "playing" →
      mapGet (s.handleSubmit pid role "").1.players pid = some ⟨role, some ""⟩ ∧
      (s.handleSubmit pid role "").2.1 = [Out.sendTo pid Msg.submitted] ∧
      countReveals (s.handleSubmit pid role "").2.1 = 0 ∧
      (s.handleSubmit pid role "").1.gameState = "playing" ∧
      (s.handleSubmit pid role "").2.2 = false) ∧
    ((step (run GameSession.start [Op.join "p1", Op.join "p2",
        Op.submit "p1" "x"]).1 (Op.submit "p2" " ")).2.1
      = [Out.sendTo "p2" Msg.submitted, Out.broadcast (Msg.reveal "x" " ")]) := by
  refine ⟨fun s pid role h => ?_, by decide⟩
  rw [handleSubmit_empty s pid role h]
  exact ⟨mapGet_mapSet_self s.players pid ⟨role, some ""⟩, rfl, rfl, h, rfl⟩

/-- Witness for claim C8 at concrete inputs. -/
theorem c8_empty_content_recorded_witness :
    mapGet ((⟨[("p1", ⟨"question", none⟩), ("p2", ⟨"answer", none⟩)],
        "playing"⟩ : GameSession).handleSubmit "p1" "question" "").1.players "p1"
      = some ⟨"question", some ""⟩ ∧
    ((⟨[("p1", ⟨"question", none⟩), ("p2", ⟨"answer", none⟩)],
        "playing"⟩ : GameSession).handleSubmit "p1" "question" "").2.1
      = [Out.sendTo "p1" Msg.submitted] ∧
    countReveals ((⟨[("p1", ⟨"question", none⟩), ("p2", ⟨"answer", none⟩)],
        "playing"⟩ : GameSession).handleSubmit "p1" "question" "").2.1 = 0 ∧
    ((⟨[("p1", ⟨"question", none⟩), ("p2", ⟨"answer", none⟩)],
        "playing"⟩ : GameSession).handleSubmit "p1" "question" "").1.gameState
      = "playing" ∧
    ((⟨[("p1", ⟨"question", none⟩), ("p2", ⟨"answer", none⟩)],
        "playing"⟩ : GameSession).handleSubmit "p1" "question" "").2.2 = false :=
  c8_empty_content_recorded.1 _ "p1" "question" (by decide)

end WordGames
